import Mathlib

/-!
Shallow embedding of src/main.py from the code-review-server repository.
The script launches a codereviewserver child process, prints a start
line, sends one JSON-RPC request on the child standard input, sleeps one
second, reads one line from the child standard output, dispatches on the
decoded line, and finally terminates and waits on the child inside the
try/finally of read_response.  JSON encoding and decoding are external
collaborators of the driver (the spec excludes them from the system);
they are modelled here by an executable JSON value type with a parser in
the style of json.loads and a serializer in the style of json.dumps.
JSON numbers are modelled as integers: no fractional number occurs
anywhere in this development.
-/

mutual

/-- JSON values as produced by json.loads and consumed by json.dumps.
Object member order is insertion order, as in Python dicts.  Arrays and
object member lists are their own mutual inductives so that every
function over values can be structurally recursive and hence evaluable
by the kernel. -/
inductive Json where
  | null : Json
  | bool : Bool → Json
  | num : Int → Json
  | str : String → Json
  | arr : JsonA → Json
  | obj : JsonO → Json

/-- A list of JSON array items. -/
inductive JsonA where
  | nil : JsonA
  | cons : Json → JsonA → JsonA

/-- A list of JSON object members in insertion order. -/
inductive JsonO where
  | nil : JsonO
  | cons : String → Json → JsonO → JsonO

end

/-- Array items from an ordinary list, for readable concrete values. -/
def JsonA.ofList : List Json → JsonA
  | [] => .nil
  | x :: xs => .cons x (JsonA.ofList xs)

/-- Object members from an ordinary list, for readable concrete values. -/
def JsonO.ofList : List (String × Json) → JsonO
  | [] => .nil
  | kv :: kvs => .cons kv.1 kv.2 (JsonO.ofList kvs)

/-- Last-binding-wins lookup in an object member list, matching the way
json.loads builds a dict: later duplicate keys overwrite earlier ones. -/
def lookupJ : JsonO → String → Option Json
  | .nil, _ => none
  | .cons k v rest, key =>
      match lookupJ rest key with
      | some r => some r
      | none => if k = key then some v else none

/-- Emptiness of an array item list. -/
def JsonA.isNil : JsonA → Bool
  | .nil => true
  | .cons _ _ => false

/-- Emptiness of an object member list. -/
def JsonO.isNil : JsonO → Bool
  | .nil => true
  | .cons _ _ _ => false

/-- Python truthiness of a decoded JSON value: None, False, zero, the
empty string, the empty list and the empty dict are falsy, every other
value is truthy. -/
def Json.truthy : Json → Bool
  | .null => false
  | .bool b => b
  | .num n => n != 0
  | .str s => s != ""
  | .arr xs => !xs.isNil
  | .obj kvs => !kvs.isNil

mutual

/-- Structural equality of JSON values, used to model the Python
equality test that list membership performs. -/
def Json.beq : Json → Json → Bool
  | Json.null, Json.null => true
  | Json.bool a, Json.bool b => a == b
  | Json.num a, Json.num b => a == b
  | Json.str a, Json.str b => a == b
  | Json.arr a, Json.arr b => JsonA.beq a b
  | Json.obj a, Json.obj b => JsonO.beq a b
  | _, _ => false

/-- Structural equality of JSON array item lists. -/
def JsonA.beq : JsonA → JsonA → Bool
  | JsonA.nil, JsonA.nil => true
  | JsonA.cons a as, JsonA.cons b bs => Json.beq a b && JsonA.beq as bs
  | _, _ => false

/-- Structural equality of JSON object member lists. -/
def JsonO.beq : JsonO → JsonO → Bool
  | JsonO.nil, JsonO.nil => true
  | JsonO.cons ka va as, JsonO.cons kb vb bs =>
      ka == kb && Json.beq va vb && JsonO.beq as bs
  | _, _ => false

end

/-- JSON whitespace skipping, as in json.loads. -/
def skipWs : List Char → List Char
  | c :: cs => if c = ' ' || c = '\t' || c = '\n' || c = '\r' then skipWs cs else c :: cs
  | [] => []

/-- Numeric value of one decimal digit character. -/
def digitVal (c : Char) : Nat := c.toNat - '0'.toNat

/-- Natural number denoted by a list of decimal digit characters. -/
def natOfDigits (ds : List Char) : Nat := ds.foldl (fun acc c => acc * 10 + digitVal c) 0

/-- Numeric value of one hexadecimal digit character, if it is one,
computed on code points: decimal digits occupy 48 to 57, the lower case
letters a to f occupy 97 to 102, the upper case ones 65 to 70. -/
def hexVal (c : Char) : Option Nat :=
  let n := c.toNat
  if 48 ≤ n && n ≤ 57 then some (n - 48)
  else if 97 ≤ n && n ≤ 102 then some (n - 87)
  else if 65 ≤ n && n ≤ 70 then some (n - 55)
  else none

/-- The opening brace character, written by code point. -/
def lbraceC : Char := Char.ofNat 123

/-- The closing brace character, written by code point. -/
def rbraceC : Char := Char.ofNat 125

/-- Body of a JSON string literal after the opening quote: handles the
standard escapes and rejects raw control characters, in the style of the
strict json.loads decoder. -/
def parseStringAux : List Char → String → Except String (String × List Char)
  | [], _ => .error "Unterminated string"
  | '"' :: rest, acc => .ok (acc, rest)
  | '\\' :: '"' :: rest, acc => parseStringAux rest (acc.push '"')
  | '\\' :: '\\' :: rest, acc => parseStringAux rest (acc.push '\\')
  | '\\' :: '/' :: rest, acc => parseStringAux rest (acc.push '/')
  | '\\' :: 'b' :: rest, acc => parseStringAux rest (acc.push (Char.ofNat 8))
  | '\\' :: 'f' :: rest, acc => parseStringAux rest (acc.push (Char.ofNat 12))
  | '\\' :: 'n' :: rest, acc => parseStringAux rest (acc.push '\n')
  | '\\' :: 'r' :: rest, acc => parseStringAux rest (acc.push '\r')
  | '\\' :: 't' :: rest, acc => parseStringAux rest (acc.push '\t')
  | '\\' :: 'u' :: a :: b :: c :: d :: rest, acc =>
      match hexVal a, hexVal b, hexVal c, hexVal d with
      | some x, some y, some z, some w =>
          parseStringAux rest (acc.push (Char.ofNat (((x * 16 + y) * 16 + z) * 16 + w)))
      | _, _, _, _ => .error "Invalid escape"
  | '\\' :: _, _ => .error "Invalid escape"
  | c :: rest, acc =>
      if c.toNat < 32 then .error "Invalid control character"
      else parseStringAux rest (acc.push c)

/-- JSON number parsing restricted to integer forms; fractional and
exponent forms are rejected, and none occurs in this development. -/
def parseNumber (cs : List Char) : Except String (Json × List Char) :=
  let neg := cs.head? == some '-'
  let cs1 := if neg then cs.tail else cs
  let digits := cs1.takeWhile Char.isDigit
  let rest := cs1.dropWhile Char.isDigit
  if digits.isEmpty then .error "Expecting value"
  else if digits.length > 1 && digits.head? == some '0' then .error "Expecting value"
  else
    match rest with
    | '.' :: _ => .error "Fractional numbers not modelled"
    | 'e' :: _ => .error "Exponent numbers not modelled"
    | 'E' :: _ => .error "Exponent numbers not modelled"
    | _ =>
        let n : Int := Int.ofNat (natOfDigits digits)
        .ok (Json.num (if neg then -n else n), rest)

mutual

/-- Fueled recursive-descent JSON value parsing in the style of
json.loads; the caller skips leading whitespace first. -/
def parseValue : Nat → List Char → Except String (Json × List Char)
  | 0, _ => .error "Out of fuel"
  | _ + 1, [] => .error "Expecting value"
  | _ + 1, 'n' :: 'u' :: 'l' :: 'l' :: rest => .ok (Json.null, rest)
  | _ + 1, 't' :: 'r' :: 'u' :: 'e' :: rest => .ok (Json.bool true, rest)
  | _ + 1, 'f' :: 'a' :: 'l' :: 's' :: 'e' :: rest => .ok (Json.bool false, rest)
  | _ + 1, '"' :: rest =>
      match parseStringAux rest "" with
      | .ok (s, rest2) => .ok (Json.str s, rest2)
      | .error e => .error e
  | n + 1, '[' :: rest =>
      match skipWs rest with
      | ']' :: rest2 => .ok (Json.arr JsonA.nil, rest2)
      | cs2 =>
          match parseArrItems n cs2 with
          | .ok (vs, rest2) => .ok (Json.arr vs, rest2)
          | .error e => .error e
  | n + 1, c :: rest =>
      if c = lbraceC then
        match skipWs rest with
        | [] => .error "Expecting property name"
        | c2 :: rest2 =>
            if c2 = rbraceC then .ok (Json.obj JsonO.nil, rest2)
            else
              match parseObjItems n (c2 :: rest2) with
              | .ok (kvs, rest3) => .ok (Json.obj kvs, rest3)
              | .error e => .error e
      else if c = '-' || c.isDigit then parseNumber (c :: rest)
      else .error "Expecting value"

/-- Fueled parsing of the items of a nonempty JSON array, positioned at
the first item. -/
def parseArrItems : Nat → List Char → Except String (JsonA × List Char)
  | 0, _ => .error "Out of fuel"
  | n + 1, cs =>
      match parseValue n cs with
      | .error e => .error e
      | .ok (v, rest) =>
          match skipWs rest with
          | ',' :: rest2 =>
              match parseArrItems n (skipWs rest2) with
              | .ok (vs, rest3) => .ok (JsonA.cons v vs, rest3)
              | .error e => .error e
          | ']' :: rest2 => .ok (JsonA.cons v JsonA.nil, rest2)
          | _ => .error "Expecting comma or close bracket"

/-- Fueled parsing of the members of a nonempty JSON object, positioned
at the first member name. -/
def parseObjItems : Nat → List Char → Except String (JsonO × List Char)
  | 0, _ => .error "Out of fuel"
  | n + 1, cs =>
      match cs with
      | '"' :: rest =>
          match parseStringAux rest "" with
          | .error e => .error e
          | .ok (k, rest2) =>
              match skipWs rest2 with
              | ':' :: rest3 =>
                  match parseValue n (skipWs rest3) with
                  | .error e => .error e
                  | .ok (v, rest4) =>
                      match skipWs rest4 with
                      | ',' :: rest5 =>
                          match parseObjItems n (skipWs rest5) with
                          | .ok (kvs, rest6) => .ok (JsonO.cons k v kvs, rest6)
                          | .error e => .error e
                      | c :: rest5 =>
                          if c = rbraceC then .ok (JsonO.cons k v JsonO.nil, rest5)
                          else .error "Expecting comma or close brace"
                      | [] => .error "Expecting comma or close brace"
              | _ => .error "Expecting colon"
      | _ => .error "Expecting property name"

end

/-- Executable model of json.loads: parse one JSON document and require
that only whitespace follows it; errors model json.JSONDecodeError. -/
def json_loads (s : String) : Except String Json :=
  match parseValue (2 * s.length + 4) (skipWs s.toList) with
  | .error e => .error e
  | .ok (v, rest) =>
      match skipWs rest with
      | [] => .ok v
      | _ => .error "Extra data"

/-- The opening brace as a one-character string. -/
def lbraceS : String := "\x7b"

/-- The closing brace as a one-character string. -/
def rbraceS : String := "\x7d"

/-- Hexadecimal digit character for a value below sixteen. -/
def hexDigit (n : Nat) : Char :=
  if n < 10 then Char.ofNat ('0'.toNat + n) else Char.ofNat ('a'.toNat + n - 10)

/-- Four-digit hexadecimal rendering of a code point. -/
def hex4 (n : Nat) : String :=
  String.mk [hexDigit (n / 4096 % 16), hexDigit (n / 256 % 16),
             hexDigit (n / 16 % 16), hexDigit (n % 16)]

/-- Serialization of one character inside a JSON string literal, in the
style of json.dumps with ensure ascii set. -/
def escapeChar (c : Char) : String :=
  if c = '"' then "\\\""
  else if c = '\\' then "\\\\"
  else if c = '\n' then "\\n"
  else if c = '\t' then "\\t"
  else if c = '\r' then "\\r"
  else if c = Char.ofNat 8 then "\\b"
  else if c = Char.ofNat 12 then "\\f"
  else if c.toNat < 32 || c.toNat > 126 then "\\u" ++ hex4 c.toNat
  else String.singleton c

/-- Serialization of a JSON string literal with quotes. -/
def dumpsStr (s : String) : String :=
  "\"" ++ String.join (s.toList.map escapeChar) ++ "\""

mutual

/-- Serializer in the style of json.dumps with its default separators,
a comma-space between items and a colon-space after names. -/
def Json.dumps : Json → String
  | Json.null => "null"
  | Json.bool true => "true"
  | Json.bool false => "false"
  | Json.num n => toString n
  | Json.str s => dumpsStr s
  | Json.arr xs => "[" ++ JsonA.dumps xs ++ "]"
  | Json.obj kvs => lbraceS ++ JsonO.dumps kvs ++ rbraceS

/-- Serialization of array items. -/
def JsonA.dumps : JsonA → String
  | JsonA.nil => ""
  | JsonA.cons x JsonA.nil => Json.dumps x
  | JsonA.cons x (JsonA.cons y xs) =>
      Json.dumps x ++ ", " ++ JsonA.dumps (JsonA.cons y xs)

/-- Serialization of object members. -/
def JsonO.dumps : JsonO → String
  | JsonO.nil => ""
  | JsonO.cons k v JsonO.nil => dumpsStr k ++ ": " ++ Json.dumps v
  | JsonO.cons k v (JsonO.cons k2 v2 kvs) =>
      dumpsStr k ++ ": " ++ Json.dumps v ++ ", " ++ JsonO.dumps (JsonO.cons k2 v2 kvs)

end

mutual

/-- Model of the Python repr of a decoded JSON value, as print applies
to non-string values; string escaping inside repr is not modelled
because no such value is printed in this development. -/
def pyRepr : Json → String
  | Json.null => "None"
  | Json.bool true => "True"
  | Json.bool false => "False"
  | Json.num n => toString n
  | Json.str s => "\x27" ++ s ++ "\x27"
  | Json.arr xs => "[" ++ pyReprA xs ++ "]"
  | Json.obj kvs => lbraceS ++ pyReprO kvs ++ rbraceS

/-- Repr of list elements. -/
def pyReprA : JsonA → String
  | JsonA.nil => ""
  | JsonA.cons x JsonA.nil => pyRepr x
  | JsonA.cons x (JsonA.cons y xs) => pyRepr x ++ ", " ++ pyReprA (JsonA.cons y xs)

/-- Repr of dict members. -/
def pyReprO : JsonO → String
  | JsonO.nil => ""
  | JsonO.cons k v JsonO.nil => "\x27" ++ k ++ "\x27: " ++ pyRepr v
  | JsonO.cons k v (JsonO.cons k2 v2 kvs) =>
      "\x27" ++ k ++ "\x27: " ++ pyRepr v ++ ", " ++ pyReprO (JsonO.cons k2 v2 kvs)

end

/-- Python str of a decoded JSON value as print applies it: strings
print as themselves, other values through repr. -/
def pyStr : Json → String
  | Json.str s => s
  | v => pyRepr v

/-- True when the first character list starts the second. -/
def startsList : List Char → List Char → Bool
  | [], _ => true
  | _ :: _, [] => false
  | a :: as, b :: bs => a == b && startsList as bs

/-- True when the first character list occurs contiguously inside the
second; models the Python substring membership test. -/
def substrIn (needle : List Char) (hay : List Char) : Bool :=
  match hay with
  | [] => needle.isEmpty
  | _ :: t => startsList needle hay || substrIn needle t

/-- True when a list of JSON values has an element equal to the given
string; models the Python list membership test against a string. -/
def memStrA (key : String) : JsonA → Bool
  | .nil => false
  | .cons x xs => Json.beq x (Json.str key) || memStrA key xs

/-- Python exceptions that can escape the handlers of the driver. -/
inductive PyExn where
  | launchError : PyExn
  | writeError : PyExn
  | keyboardInterrupt : PyExn
  | typeError : PyExn
  | keyError : String → PyExn

deriving instance DecidableEq for PyExn

/-- Points at which an external KeyboardInterrupt may arrive after the
launch of the child process. -/
inductive IPoint where
  | beforeSend : IPoint
  | duringSleep : IPoint
  | duringReadline : IPoint

deriving instance DecidableEq for IPoint

/-- One driver run environment: whether the launch succeeds, whether the
stdin write succeeds, where an external interrupt arrives if anywhere,
and the line that readline returns on the child stdout, with the empty
string standing for end of stream. -/
structure Env where
  launchOk : Bool
  writeOk : Bool
  interrupt : Option IPoint
  line : String

deriving instance DecidableEq for Env

/-- Observable events of one driver run, in order. -/
inductive Event where
  | printed : String → Event
  | launched : Event
  | wroteStdin : String → Event
  | flushedStdin : Event
  | slept : Nat → Event
  | readLineStart : Event
  | readLineDone : String → Event
  | terminated : Event
  | waited : Event

deriving instance DecidableEq for Event

/-- The Python membership test of a string key in a value, for the
shapes reachable here: dict key lookup, substring test on strings,
element equality on lists; a TypeError on non-iterable values. -/
def pyIn (key : String) : Json → Except PyExn Bool
  | Json.obj kvs => .ok (lookupJ kvs key).isSome
  | Json.str s => .ok (substrIn key.toList s.toList)
  | Json.arr xs => .ok (memStrA key xs)
  | _ => .error PyExn.typeError

/-- The Python subscript of a value at a string key: dict lookup that
raises KeyError when the key is absent, TypeError on every non-dict
value. -/
def pySubscript (v : Json) (key : String) : Except PyExn Json :=
  match v with
  | Json.obj kvs =>
      match lookupJ kvs key with
      | some x => .ok x
      | none => .error (PyExn.keyError key)
  | _ => .error PyExn.typeError

/-- The elif result branch of read_response: print the SUCCESS line,
access response at result then at Content, print the content and the
DONE CONTENT marker; first component is the printed lines in order,
second an uncaught exception if one is raised. -/
def handleResultBranch (response : Json) : List String × Option PyExn :=
  match pyIn "result" response with
  | .error e => ([], some e)
  | .ok true =>
      match pySubscript response "result" with
      | .error e => (["SUCCESS: Received response"], some e)
      | .ok res =>
          match pySubscript res "Content" with
          | .error e => (["SUCCESS: Received response"], some e)
          | .ok content =>
              (["SUCCESS: Received response", pyStr content, "DONE CONTENT"], none)
  | .ok false => ([], none)

/-- The dispatch on a decoded response in read_response: the error test
with its truthiness guard, else the result branch; printed lines plus an
optional uncaught exception. -/
def handleResponse (response : Json) : List String × Option PyExn :=
  match pyIn "error" response with
  | .error e => ([], some e)
  | .ok true =>
      match pySubscript response "error" with
      | .error e => ([], some e)
      | .ok errVal =>
          if errVal.truthy then (["RPC Error: " ++ pyStr errVal], none)
          else handleResultBranch response
  | .ok false => handleResultBranch response

/-- The per-line portion of read_response: the truthiness test on the
line read, json.loads under the JSONDecodeError handler, and the
response dispatch; printed lines plus an optional uncaught exception. -/
def lineOutputs (line : String) : List String × Option PyExn :=
  if line = "" then (["No response received (EOF)"], none)
  else
    match json_loads line with
    | .error msg => (["Failed to decode JSON: " ++ msg], none)
    | .ok response => handleResponse response

/-- The request dictionary built by send_request. -/
def mkRequest (method : String) (params : Json) : Json :=
  Json.obj (JsonO.ofList
    [("jsonrpc", Json.str "2.0"), ("method", Json.str method),
     ("params", params), ("id", Json.num 1)])

/-- Embedding of send_request: print the Sending request line, then
write the serialized request plus one newline to the child stdin and
flush it; a broken stdin makes the write raise, and an interrupt that
arrives before the send raises KeyboardInterrupt here, outside the
try/finally of read_response. -/
def send_request (env : Env) (method : String) (params : Json) :
    List Event × Option PyExn :=
  if env.interrupt = some IPoint.beforeSend then
    ([], some PyExn.keyboardInterrupt)
  else
    let payload := Json.dumps (mkRequest method params)
    if env.writeOk then
      ([Event.printed ("Sending request: " ++ payload),
        Event.wroteStdin (payload ++ "\n"), Event.flushedStdin], none)
    else
      ([Event.printed ("Sending request: " ++ payload)], some PyExn.writeError)

/-- The try block of read_response: sleep one second, print the waiting
line, read one line from the child stdout and dispatch on it; an
interrupt during the sleep or during the read raises KeyboardInterrupt
out of the block. -/
def read_response_try (env : Env) : List Event × Option PyExn :=
  match env.interrupt with
  | some IPoint.duringSleep => ([], some PyExn.keyboardInterrupt)
  | some IPoint.duringReadline =>
      ([Event.slept 1, Event.printed "Waiting for response...", Event.readLineStart],
       some PyExn.keyboardInterrupt)
  | _ =>
      ([Event.slept 1, Event.printed "Waiting for response...",
        Event.readLineStart, Event.readLineDone env.line]
         ++ (lineOutputs env.line).1.map Event.printed,
       (lineOutputs env.line).2)

/-- What the except KeyboardInterrupt handler of read_response prints:
the Interrupted line when a KeyboardInterrupt is in flight. -/
def kiHandlerPrints : Option PyExn → List Event
  | some PyExn.keyboardInterrupt => [Event.printed "Interrupted"]
  | _ => []

/-- The exception still in flight after the except KeyboardInterrupt
handler of read_response. -/
def kiHandlerExn : Option PyExn → Option PyExn
  | some PyExn.keyboardInterrupt => none
  | e => e

/-- The except KeyboardInterrupt handler of read_response applied to the
outcome of its try block. -/
def handleKI (p : List Event × Option PyExn) : List Event × Option PyExn :=
  (p.1 ++ kiHandlerPrints p.2, kiHandlerExn p.2)

/-- The finally block of read_response: print the terminating line, then
terminate and wait on the child; it runs whether or not an exception is
in flight and rethrows any in-flight exception afterwards. -/
def finallyTeardown (p : List Event × Option PyExn) : List Event × Option PyExn :=
  (p.1 ++ [Event.printed "Terminating server...", Event.terminated, Event.waited], p.2)

/-- Embedding of read_response: the try block, then the
KeyboardInterrupt handler, then the finally teardown. -/
def read_response (env : Env) : List Event × Option PyExn :=
  finallyTeardown (handleKI (read_response_try env))

/-- The concrete GetPR params list built in main. -/
def get_pr_params : Json :=
  Json.arr (JsonA.ofList
    [Json.obj (JsonO.ofList
      [("Repo", Json.str "gtdbot"), ("Owner", Json.str "C-Hipple"),
       ("Number", Json.num 25)])])

/-- Embedding of main: print the start line, launch the child, send the
GetPR request, then run read_response.  An exception raised by the
launch or inside send_request propagates here without ever reaching the
finally teardown of read_response, because only read_response guards the
child with try/finally. -/
def mainRun (env : Env) : List Event × Option PyExn :=
  if env.launchOk then
    match send_request env "RPCHandler.GetPR" get_pr_params with
    | (evs, some e) =>
        ([Event.printed "Starting codereviewserver...", Event.launched] ++ evs, some e)
    | (evs, none) =>
        ([Event.printed "Starting codereviewserver...", Event.launched] ++ evs
           ++ (read_response env).1,
         (read_response env).2)
  else
    ([Event.printed "Starting codereviewserver..."], some PyExn.launchError)











/-- Scanner for the ordering invariant: true when every read start in
the trace comes after a completed flush of the request; the Boolean
state records whether a flush has been seen so far. -/
def readsAfterFlush : Bool → List Event → Bool
  | _, [] => true
  | _, Event.flushedStdin :: rest => readsAfterFlush true rest
  | b, Event.readLineStart :: rest => b && readsAfterFlush b rest
  | b, _ :: rest => readsAfterFlush b rest

/-- The payloads written to the child stdin, in order. -/
def writesOf : List Event → List String
  | [] => []
  | Event.wroteStdin s :: rest => s :: writesOf rest
  | _ :: rest => writesOf rest

/-- Scanner checking that every stdin write is immediately followed by a
flush. -/
def flushFollowsWrite : List Event → Bool
  | [] => true
  | Event.wroteStdin _ :: Event.flushedStdin :: rest => flushFollowsWrite rest
  | Event.wroteStdin _ :: _ => false
  | _ :: rest => flushFollowsWrite rest

/-- Number of completed fixed sleeps in a trace. -/
def sleepsOf : List Event → Nat
  | [] => 0
  | Event.slept _ :: rest => sleepsOf rest + 1
  | _ :: rest => sleepsOf rest

/-- Scanner for the position of fixed sleeps: with state flags for a
seen flush and a seen read start, accepts only sleeps that occur after
the flush of the request and before the first read. -/
def sleepsBetween : Bool → Bool → List Event → Bool
  | _, _, [] => true
  | _, r, Event.flushedStdin :: rest => sleepsBetween true r rest
  | f, _, Event.readLineStart :: rest => sleepsBetween f true rest
  | f, r, Event.slept _ :: rest => (f && !r) && sleepsBetween f r rest
  | f, r, _ :: rest => sleepsBetween f r rest

/-- Scanner for the claim that fixed sleeps come before the request
write: the state records whether a write has been seen, and only sleeps
seen before any write are accepted. -/
def sleepsBeforeWrite : Bool → List Event → Bool
  | _, [] => true
  | _, Event.wroteStdin _ :: rest => sleepsBeforeWrite true rest
  | w, Event.slept _ :: rest => !w && sleepsBeforeWrite w rest
  | w, _ :: rest => sleepsBeforeWrite w rest

/-- Number of occurrences of one event in a trace. -/
def countEv (e : Event) : List Event → Nat
  | [] => 0
  | x :: rest => countEv e rest + (if x = e then 1 else 0)

/-- True when the first string starts the second. -/
def strStarts (p s : String) : Bool := startsList p.toList s.toList

/-- Recognizer of the decode failure report line. -/
def isDecodePrint : Event → Bool
  | Event.printed s => strStarts "Failed to decode JSON" s
  | _ => false

/-- Recognizer of the RPC error report line. -/
def isRpcErrorPrint : Event → Bool
  | Event.printed s => strStarts "RPC Error" s
  | _ => false

/-- True when the string ends with exactly one newline and contains no
other newline. -/
def endsWithSingleNewline (s : String) : Bool :=
  match s.toList.reverse with
  | '\n' :: rest => !rest.contains '\n'
  | _ => false

/-- True for print events, the only events the line dispatch and the
interrupt handler can contribute to a trace. -/
def eventIsPrint : Event → Bool
  | Event.printed _ => true
  | _ => false

/-- The serialized request line actually sent by the driver. -/
def reqPayload : String := Json.dumps (mkRequest "RPCHandler.GetPR" get_pr_params) ++ "\n"

/-- Environment of the C3 scenario: a normal run whose response line is
the result object with Content hello world. -/
def envC3 : Env := Env.mk true true none "\x7b\"result\":\x7b\"Content\":\"hello world\"\x7d\x7d"

/-- Environment of the C4 scenario: a normal run whose response line is
the error object with message bad method. -/
def envC4 : Env := Env.mk true true none "\x7b\"error\":\"bad method\"\x7d"

/-- Environment of the C5 scenario: a normal run whose read returns zero
bytes, the end of stream. -/
def envC5 : Env := Env.mk true true none ""

/-- Environment of the C6 scenario: a normal run whose response line is
not valid JSON. -/
def envC6 : Env := Env.mk true true none "not json at all"

/-- Environment of the first C9 scenario: a null error field. -/
def envC9a : Env := Env.mk true true none "\x7b\"error\": null\x7d"

/-- Environment of the second C9 scenario: only a status field. -/
def envC9b : Env := Env.mk true true none "\x7b\"status\": \"ok\"\x7d"

/-- Environment of the first C10 scenario: a string result. -/
def envC10a : Env := Env.mk true true none "\x7b\"result\": \"oops\"\x7d"

/-- Environment of the second C10 scenario: a result mapping without a
Content key. -/
def envC10b : Env := Env.mk true true none "\x7b\"result\": \x7b\"Foo\": \"bar\"\x7d\x7d"

theorem raf_map (l : List String) (b : Bool) (rest : List Event) :
    readsAfterFlush b (l.map Event.printed ++ rest) = readsAfterFlush b rest := by
  induction l with
  | nil => rfl
  | cons x xs ih => exact ih

theorem raf_ki (x : Option PyExn) (b : Bool) (rest : List Event) :
    readsAfterFlush b (kiHandlerPrints x ++ rest) = readsAfterFlush b rest := by
  rcases x with _ | e
  · rfl
  · cases e <;> rfl

theorem writesOf_map (l : List String) (rest : List Event) :
    writesOf (l.map Event.printed ++ rest) = writesOf rest := by
  induction l with
  | nil => rfl
  | cons x xs ih => exact ih

theorem writesOf_ki (x : Option PyExn) (rest : List Event) :
    writesOf (kiHandlerPrints x ++ rest) = writesOf rest := by
  rcases x with _ | e
  · rfl
  · cases e <;> rfl

theorem ffw_map (l : List String) (rest : List Event) :
    flushFollowsWrite (l.map Event.printed ++ rest) = flushFollowsWrite rest := by
  induction l with
  | nil => rfl
  | cons x xs ih => exact ih

theorem ffw_ki (x : Option PyExn) (rest : List Event) :
    flushFollowsWrite (kiHandlerPrints x ++ rest) = flushFollowsWrite rest := by
  rcases x with _ | e
  · rfl
  · cases e <;> rfl

theorem sleepsOf_map (l : List String) (rest : List Event) :
    sleepsOf (l.map Event.printed ++ rest) = sleepsOf rest := by
  induction l with
  | nil => rfl
  | cons x xs ih => exact ih

theorem sleepsOf_ki (x : Option PyExn) (rest : List Event) :
    sleepsOf (kiHandlerPrints x ++ rest) = sleepsOf rest := by
  rcases x with _ | e
  · rfl
  · cases e <;> rfl

theorem sb_map (l : List String) (f r : Bool) (rest : List Event) :
    sleepsBetween f r (l.map Event.printed ++ rest) = sleepsBetween f r rest := by
  induction l with
  | nil => rfl
  | cons x xs ih => exact ih

theorem sb_ki (x : Option PyExn) (f r : Bool) (rest : List Event) :
    sleepsBetween f r (kiHandlerPrints x ++ rest) = sleepsBetween f r rest := by
  rcases x with _ | e
  · rfl
  · cases e <;> rfl

/-- The trace of a run with successful launch, successful write and no
interrupt: a fixed head through the read of the line, then the printed
outputs of the line dispatch and of the interrupt handler, then the
teardown tail. -/
theorem mainRun_none_trace (line : String) :
    (mainRun (Env.mk true true none line)).1 =
      [Event.printed "Starting codereviewserver...", Event.launched,
       Event.printed ("Sending request: " ++ Json.dumps (mkRequest "RPCHandler.GetPR" get_pr_params)),
       Event.wroteStdin reqPayload, Event.flushedStdin,
       Event.slept 1, Event.printed "Waiting for response...",
       Event.readLineStart, Event.readLineDone line] ++
      (((lineOutputs line).1.map Event.printed ++ kiHandlerPrints (lineOutputs line).2) ++
       [Event.printed "Terminating server...", Event.terminated, Event.waited]) := rfl

theorem writesOf_mainRun_none (line : String) :
    writesOf (mainRun (Env.mk true true none line)).1 = [reqPayload] := by
  rw [mainRun_none_trace]
  show reqPayload ::
      writesOf (((lineOutputs line).1.map Event.printed ++ kiHandlerPrints (lineOutputs line).2) ++
        [Event.printed "Terminating server...", Event.terminated, Event.waited]) = [reqPayload]
  rw [List.append_assoc, writesOf_map, writesOf_ki]
  rfl

theorem raf_mainRun_none (line : String) :
    readsAfterFlush false (mainRun (Env.mk true true none line)).1 = true := by
  rw [mainRun_none_trace]
  show readsAfterFlush true
      (((lineOutputs line).1.map Event.printed ++ kiHandlerPrints (lineOutputs line).2) ++
        [Event.printed "Terminating server...", Event.terminated, Event.waited]) = true
  rw [List.append_assoc, raf_map, raf_ki]
  rfl

theorem ffw_mainRun_none (line : String) :
    flushFollowsWrite (mainRun (Env.mk true true none line)).1 = true := by
  rw [mainRun_none_trace]
  show flushFollowsWrite
      (((lineOutputs line).1.map Event.printed ++ kiHandlerPrints (lineOutputs line).2) ++
        [Event.printed "Terminating server...", Event.terminated, Event.waited]) = true
  rw [List.append_assoc, ffw_map, ffw_ki]
  rfl

theorem sleepsOf_mainRun_none (line : String) :
    sleepsOf (mainRun (Env.mk true true none line)).1 = 1 := by
  rw [mainRun_none_trace]
  show sleepsOf (((lineOutputs line).1.map Event.printed ++ kiHandlerPrints (lineOutputs line).2) ++
        [Event.printed "Terminating server...", Event.terminated, Event.waited]) + 1 = 1
  rw [List.append_assoc, sleepsOf_map, sleepsOf_ki]
  rfl

theorem sb_mainRun_none (line : String) :
    sleepsBetween false false (mainRun (Env.mk true true none line)).1 = true := by
  rw [mainRun_none_trace]
  show sleepsBetween true true
      (((lineOutputs line).1.map Event.printed ++ kiHandlerPrints (lineOutputs line).2) ++
        [Event.printed "Terminating server...", Event.terminated, Event.waited]) = true
  rw [List.append_assoc, sb_map, sb_ki]
  rfl

theorem countT_map (l : List String) (rest : List Event) :
    countEv Event.terminated (l.map Event.printed ++ rest) = countEv Event.terminated rest := by
  induction l with
  | nil => rfl
  | cons x xs ih => exact ih

theorem countT_ki (x : Option PyExn) (rest : List Event) :
    countEv Event.terminated (kiHandlerPrints x ++ rest) = countEv Event.terminated rest := by
  rcases x with _ | e
  · rfl
  · cases e <;> rfl

theorem countW_map (l : List String) (rest : List Event) :
    countEv Event.waited (l.map Event.printed ++ rest) = countEv Event.waited rest := by
  induction l with
  | nil => rfl
  | cons x xs ih => exact ih

theorem countW_ki (x : Option PyExn) (rest : List Event) :
    countEv Event.waited (kiHandlerPrints x ++ rest) = countEv Event.waited rest := by
  rcases x with _ | e
  · rfl
  · cases e <;> rfl

theorem countT_mainRun_none (line : String) :
    countEv Event.terminated (mainRun (Env.mk true true none line)).1 = 1 := by
  rw [mainRun_none_trace]
  show countEv Event.terminated
      (((lineOutputs line).1.map Event.printed ++ kiHandlerPrints (lineOutputs line).2) ++
        [Event.printed "Terminating server...", Event.terminated, Event.waited]) = 1
  rw [List.append_assoc, countT_map, countT_ki]
  rfl

theorem countW_mainRun_none (line : String) :
    countEv Event.waited (mainRun (Env.mk true true none line)).1 = 1 := by
  rw [mainRun_none_trace]
  show countEv Event.waited
      (((lineOutputs line).1.map Event.printed ++ kiHandlerPrints (lineOutputs line).2) ++
        [Event.printed "Terminating server...", Event.terminated, Event.waited]) = 1
  rw [List.append_assoc, countW_map, countW_ki]
  rfl

/-- Supporting fact: teardown does run, exactly once, in every run that
reaches read_response, because the finally block guards everything from
the sleep onwards.  Together with the C1 evaluation this locates the gap
precisely at send_request, which sits outside the try/finally. -/
theorem teardown_once_when_read_response_reached (env : Env)
    (h1 : env.launchOk = true) (h2 : env.writeOk = true)
    (h3 : env.interrupt ≠ some IPoint.beforeSend) :
    countEv Event.terminated (mainRun env).1 = 1 ∧
    countEv Event.waited (mainRun env).1 = 1 := by
  obtain ⟨lok, wok, intr, line⟩ := env
  cases h1
  cases h2
  rcases intr with _ | p
  · exact ⟨countT_mainRun_none line, countW_mainRun_none line⟩
  · cases p
    · exact absurd rfl h3
    · exact ⟨rfl, rfl⟩
    · exact ⟨rfl, rfl⟩

/-- Supporting witness: the supporting teardown fact applied at one
concrete environment. -/
theorem teardown_once_when_read_response_reached_witness :
    countEv Event.terminated (mainRun (Env.mk true true none "x")).1 = 1 ∧
    countEv Event.waited (mainRun (Env.mk true true none "x")).1 = 1 :=
  teardown_once_when_read_response_reached (Env.mk true true none "x") rfl rfl (by decide)

/-- Claim C1, evaluation at the failing inputs: with a successful launch
followed by a failing stdin write, and likewise with an external
interrupt arriving after the launch but before read_response begins, the
run raises out of main with zero terminate and zero wait calls on the
launched child, so terminate plus wait is not invoked exactly once; the
exception escapes because send_request sits outside the try/finally of
read_response. -/
theorem C1_teardown_skipped_outside_read_response :
    (Event.launched ∈ (mainRun (Env.mk true false none "")).1 ∧
     countEv Event.terminated (mainRun (Env.mk true false none "")).1 = 0 ∧
     countEv Event.waited (mainRun (Env.mk true false none "")).1 = 0 ∧
     (mainRun (Env.mk true false none "")).2 = some PyExn.writeError) ∧
    (Event.launched ∈ (mainRun (Env.mk true true (some IPoint.beforeSend) "")).1 ∧
     countEv Event.terminated (mainRun (Env.mk true true (some IPoint.beforeSend) "")).1 = 0 ∧
     countEv Event.waited (mainRun (Env.mk true true (some IPoint.beforeSend) "")).1 = 0 ∧
     (mainRun (Env.mk true true (some IPoint.beforeSend) "")).2 = some PyExn.keyboardInterrupt) := by
  decide

/-- Claim C2: in every driver run the write and flush of the request to
the child stdin complete strictly before any read from the child stdout
begins; the scanner accepts a trace only when every read start is
preceded by the completed flush. -/
theorem C2_write_flush_before_read (env : Env) :
    readsAfterFlush false (mainRun env).1 = true := by
  obtain ⟨lok, wok, intr, line⟩ := env
  rcases intr with _ | p
  · cases lok
    · rfl
    · cases wok
      · rfl
      · exact raf_mainRun_none line
  · cases p <;> cases lok <;> cases wok <;> rfl

/-- Claim C3: under the single-line policy, the line holding a result
object with Content hello world makes the driver end without exception,
report SUCCESS and print the content hello world followed by the DONE
CONTENT marker, with no RPC error, decode failure or empty-response
report. -/
theorem C3_success_hello_world :
    (mainRun envC3).2 = none ∧
    Event.printed "SUCCESS: Received response" ∈ (mainRun envC3).1 ∧
    Event.printed "hello world" ∈ (mainRun envC3).1 ∧
    Event.printed "DONE CONTENT" ∈ (mainRun envC3).1 ∧
    (mainRun envC3).1.any isRpcErrorPrint = false ∧
    (mainRun envC3).1.any isDecodePrint = false ∧
    Event.printed "No response received (EOF)" ∉ (mainRun envC3).1 := by
  decide

/-- Claim C4: under the single-line policy, the line holding a truthy
error field bad method makes the driver report the RPC error with that
message and never enter the result branch: no SUCCESS line, no content
access, no exception. -/
theorem C4_rpc_error_bad_method :
    Event.printed "RPC Error: bad method" ∈ (mainRun envC4).1 ∧
    (mainRun envC4).2 = none ∧
    Event.printed "SUCCESS: Received response" ∉ (mainRun envC4).1 ∧
    Event.printed "DONE CONTENT" ∉ (mainRun envC4).1 ∧
    countEv Event.terminated (mainRun envC4).1 = 1 ∧
    countEv Event.waited (mainRun envC4).1 = 1 := by
  decide

/-- Claim C5: under the single-line policy, a zero-byte read reported as
the empty string makes the driver report the distinct no-response
outcome and none of the success, RPC error or decode failure outcomes,
without exception. -/
theorem C5_empty_read_reports_no_response :
    Event.printed "No response received (EOF)" ∈ (mainRun envC5).1 ∧
    (mainRun envC5).2 = none ∧
    Event.printed "SUCCESS: Received response" ∉ (mainRun envC5).1 ∧
    Event.printed "DONE CONTENT" ∉ (mainRun envC5).1 ∧
    (mainRun envC5).1.any isRpcErrorPrint = false ∧
    (mainRun envC5).1.any isDecodePrint = false := by
  decide

/-- Claim C6: under the single-line policy, the non-JSON line makes the
driver report a decode failure, raise nothing out of main, and still run
the teardown, terminating and then waiting on the child exactly once at
the end of the trace. -/
theorem C6_decode_failure_recovered :
    (mainRun envC6).1.any isDecodePrint = true ∧
    Event.printed "Failed to decode JSON: Expecting value" ∈ (mainRun envC6).1 ∧
    (mainRun envC6).2 = none ∧
    countEv Event.terminated (mainRun envC6).1 = 1 ∧
    countEv Event.waited (mainRun envC6).1 = 1 ∧
    (mainRun envC6).1.reverse.take 2 = [Event.waited, Event.terminated] := by
  decide

/-- Claim C7: every driver run flushes immediately after each stdin
write and writes at most one request; every run with a successful launch
and write and no pre-send interrupt writes exactly one request, the
JSON-RPC envelope with protocol two point zero, the method string, the
params array and the integer id one, serialized on one line terminated
by a single newline. -/
theorem C7_single_request (env : Env) :
    (writesOf (mainRun env).1).length ≤ 1 ∧
    flushFollowsWrite (mainRun env).1 = true ∧
    (env.launchOk = true → env.writeOk = true →
      env.interrupt ≠ some IPoint.beforeSend →
      writesOf (mainRun env).1 = [reqPayload] ∧
      reqPayload = "\x7b\"jsonrpc\": \"2.0\", \"method\": \"RPCHandler.GetPR\", \"params\": [\x7b\"Repo\": \"gtdbot\", \"Owner\": \"C-Hipple\", \"Number\": 25\x7d], \"id\": 1\x7d\n" ∧
      endsWithSingleNewline reqPayload = true ∧
      mkRequest "RPCHandler.GetPR" get_pr_params =
        Json.obj (JsonO.ofList
          [("jsonrpc", Json.str "2.0"), ("method", Json.str "RPCHandler.GetPR"),
           ("params", get_pr_params), ("id", Json.num 1)])) := by
  obtain ⟨lok, wok, intr, line⟩ := env
  rcases intr with _ | p
  · cases lok
    · exact ⟨Nat.zero_le 1, rfl, fun h => Bool.noConfusion h⟩
    · cases wok
      · exact ⟨Nat.zero_le 1, rfl, fun _ h => Bool.noConfusion h⟩
      · refine ⟨?_, ffw_mainRun_none line,
          fun _ _ _ => ⟨writesOf_mainRun_none line, by decide, by decide, rfl⟩⟩
        rw [writesOf_mainRun_none]
        exact Nat.le_refl 1
  · cases p <;> cases lok <;> cases wok <;>
      refine ⟨?_, rfl, ?_⟩ <;>
      first
        | exact Nat.zero_le 1
        | exact Nat.le_refl 1
        | exact fun h => Bool.noConfusion h
        | exact fun _ h => Bool.noConfusion h
        | exact fun _ _ h3 => absurd rfl h3
        | exact fun _ _ _ => ⟨rfl, by decide, by decide, rfl⟩

/-- Witness for claim C7: the theorem applied at the concrete
environment of a normal run with an end-of-stream response. -/
theorem C7_single_request_witness :
    (writesOf (mainRun (Env.mk true true none "")).1).length ≤ 1 ∧
    flushFollowsWrite (mainRun (Env.mk true true none "")).1 = true ∧
    (writesOf (mainRun (Env.mk true true none "")).1 = [reqPayload] ∧
     reqPayload = "\x7b\"jsonrpc\": \"2.0\", \"method\": \"RPCHandler.GetPR\", \"params\": [\x7b\"Repo\": \"gtdbot\", \"Owner\": \"C-Hipple\", \"Number\": 25\x7d], \"id\": 1\x7d\n" ∧
     endsWithSingleNewline reqPayload = true ∧
     mkRequest "RPCHandler.GetPR" get_pr_params =
       Json.obj (JsonO.ofList
         [("jsonrpc", Json.str "2.0"), ("method", Json.str "RPCHandler.GetPR"),
          ("params", get_pr_params), ("id", Json.num 1)])) := by
  have h := C7_single_request (Env.mk true true none "")
  exact ⟨h.1, h.2.1, h.2.2 rfl rfl (by decide)⟩

/-- Claim C8, counterexample to the stated placement: in a normal run
the trace contains exactly one fixed sleep and it does not occur before
the request write, so the fixed sleep is not a pre-send delay. -/
theorem C8_sleep_not_before_write :
    sleepsOf (mainRun (Env.mk true true none "x")).1 = 1 ∧
    sleepsBeforeWrite false (mainRun (Env.mk true true none "x")).1 = false := by
  decide

/-- Claim C8 as amended: the only fixed-sleep suspension point is a
post-send, pre-read delay: in every driver run each fixed sleep occurs
after the write and flush of the request and before any read from the
child stdout begins, and there is at most one fixed sleep per run. -/
theorem C8_sleep_between_send_and_read (env : Env) :
    sleepsBetween false false (mainRun env).1 = true ∧
    sleepsOf (mainRun env).1 ≤ 1 := by
  obtain ⟨lok, wok, intr, line⟩ := env
  rcases intr with _ | p
  · cases lok
    · exact ⟨rfl, Nat.zero_le 1⟩
    · cases wok
      · exact ⟨rfl, Nat.zero_le 1⟩
      · exact ⟨sb_mainRun_none line, by simp [sleepsOf_mainRun_none]⟩
  · cases p <;> cases lok <;> cases wok <;>
      refine ⟨rfl, ?_⟩ <;> first | exact Nat.zero_le 1 | exact Nat.le_refl 1

/-- Claim C9: under the single-line policy, valid JSON with no truthy
error field and no result key, such as an object with a null error or an
object with only a status field, produces no outcome report at all: no
RPC error, no success, no decode failure, no empty-response line, no
exception, and the run proceeds silently to the teardown. -/
theorem C9_silent_on_unrecognized_json :
    ((mainRun envC9a).2 = none ∧
     (mainRun envC9a).1.any isRpcErrorPrint = false ∧
     (mainRun envC9a).1.any isDecodePrint = false ∧
     Event.printed "SUCCESS: Received response" ∉ (mainRun envC9a).1 ∧
     Event.printed "No response received (EOF)" ∉ (mainRun envC9a).1 ∧
     Event.printed "DONE CONTENT" ∉ (mainRun envC9a).1 ∧
     countEv Event.terminated (mainRun envC9a).1 = 1 ∧
     countEv Event.waited (mainRun envC9a).1 = 1) ∧
    ((mainRun envC9b).2 = none ∧
     (mainRun envC9b).1.any isRpcErrorPrint = false ∧
     (mainRun envC9b).1.any isDecodePrint = false ∧
     Event.printed "SUCCESS: Received response" ∉ (mainRun envC9b).1 ∧
     Event.printed "No response received (EOF)" ∉ (mainRun envC9b).1 ∧
     Event.printed "DONE CONTENT" ∉ (mainRun envC9b).1 ∧
     countEv Event.terminated (mainRun envC9b).1 = 1 ∧
     countEv Event.waited (mainRun envC9b).1 = 1) := by
  decide

/-- Claim C10: under the single-line policy, a valid JSON line whose
result is not a mapping with a Content key makes the content access
raise an exception the handlers do not catch, a TypeError on a string
result and a KeyError on a mapping without Content; the finally cleanup
still terminates and waits on the child exactly once, and the run ends
with the exception in flight and no completed outcome report. -/
theorem C10_result_not_mapping_uncaught :
    ((mainRun envC10a).2 = some PyExn.typeError ∧
     countEv Event.terminated (mainRun envC10a).1 = 1 ∧
     countEv Event.waited (mainRun envC10a).1 = 1 ∧
     Event.printed "DONE CONTENT" ∉ (mainRun envC10a).1 ∧
     (mainRun envC10a).1.any isRpcErrorPrint = false ∧
     (mainRun envC10a).1.any isDecodePrint = false ∧
     Event.printed "No response received (EOF)" ∉ (mainRun envC10a).1) ∧
    ((mainRun envC10b).2 = some (PyExn.keyError "Content") ∧
     countEv Event.terminated (mainRun envC10b).1 = 1 ∧
     countEv Event.waited (mainRun envC10b).1 = 1 ∧
     Event.printed "DONE CONTENT" ∉ (mainRun envC10b).1 ∧
     (mainRun envC10b).1.any isRpcErrorPrint = false ∧
     (mainRun envC10b).1.any isDecodePrint = false ∧
     Event.printed "No response received (EOF)" ∉ (mainRun envC10b).1) := by
  decide
